import Mathlib

/-!
Verification of the Bexorg data-analysis repository.

Shallow embedding of the two source programs:
* `data_analysis_tool.py` — dataset registry, selection list, plot pipeline,
  statistics table and PDF report export (`MainWindow`, `PlotCanvas`);
* `main.py` — the real-time producer (`PlotWorker`).

Numeric samples are modelled as exact rationals; the square root taken by
the standard-deviation display is the real square root.
-/

namespace DataAnalysis

/-- Decoded content of one `.npy` file: the sequence of (x, y) pairs
(`np.load` result, consumed by `zip(*data)`). -/
abbrev Data := List (ℚ × ℚ)

/-- `MainWindow.datasets`: a Python dict from dataset name to decoded data,
modelled as an association list in insertion order with unique keys. -/
abbrev Registry := List (String × Data)

/-- `self.datasets[short_name] = data`: Python dict assignment — update the
value in place when the key is present, append a new entry otherwise. -/
def dictInsert : Registry → String → Data → Registry
  | [], n, d => [(n, d)]
  | p :: r, n, d => if p.1 = n then (n, d) :: r else p :: dictInsert r n d

/-- `name in self.datasets` / `self.datasets[name]`: dict lookup. -/
def dictLookup (r : Registry) (n : String) : Option Data :=
  (r.find? (fun p => p.1 == n)).map Prod.snd

/-- One entry of the `QListWidget` dataset selector: its text and whether the
user has checked it. -/
structure SelItem where
  name : String
  checked : Bool
deriving DecidableEq, Repr

/-- The entries of the plot-type combo box. `selectPlot` is the default
entry, the string `Select Plot` in the source (the "none" mode of the spec). -/
inductive PlotMode
  | selectPlot
  | line
  | hist
  | fft
  | regression
deriving DecidableEq, Repr

/-- matplotlib label that excludes an artist from the legend. -/
def NOLEGEND : String := "_nolegend_"

/-- Stand-in for the automatic label matplotlib gives a line plotted without
an explicit label (the fit line of regression mode); the only fact used about
it is that it differs from `_nolegend_`. -/
def autoLabel : String := "_auto"

/-- The artists one dataset contributes to the axes in `PlotCanvas.plot`,
as (labels of Line2D artists, labels of histogram patch containers):
`line` and `fft` call `axes.plot` once with a label; `hist` calls `axes.hist`
(patches, not lines); `regression` calls `axes.plot` twice, the fit line
without a label; any other mode falls through and draws nothing. -/
def modeArtists (m : PlotMode) (label : String) : List String × List String :=
  match m with
  | .line => ([label], [])
  | .hist => ([], [label])
  | .fft => ([label], [])
  | .regression => ([label, autoLabel], [])
  | .selectPlot => ([], [])

/-- The observable state of `PlotCanvas.axes` after a `plot` call: the labels
of its line artists and of its patch containers, the axis labels, and
whether `axes.legend()` was invoked. -/
structure Chart where
  lines : List String
  patches : List String
  xLabel : String
  yLabel : String
  legendShown : Bool
deriving DecidableEq, Repr

/-- A dataset as gathered for plotting: `(x_data, y_data, name)`. -/
abbrev DS := List ℚ × List ℚ × String

/-- `PlotCanvas.plot(datasets, plot_type, x_label, y_label)`: clear the axes,
add the per-dataset artists for the mode, set the axis labels, and call
`legend()` exactly when some *line* has a label other than `_nolegend_`
(`any(line.get_label() != '_nolegend_' for line in self.axes.get_lines())` —
histogram patches are not lines and never enable the legend). -/
def canvasPlot (ds : List DS) (m : PlotMode) (xl yl : String) : Chart :=
  let ls := (ds.map (fun d => (modeArtists m d.2.2).1)).flatten
  let ps := (ds.map (fun d => (modeArtists m d.2.2).2)).flatten
  { lines := ls
    patches := ps
    xLabel := xl
    yLabel := yl
    legendShown := ls.any (fun l => l != NOLEGEND) }

/-- `np.mean(y)`. -/
def listMean (l : List ℚ) : ℚ := l.sum / l.length

/-- `statistics.median(y)` (also `np.median`): sort ascending, take the
middle element for odd length, the average of the two middle elements for
even length. -/
def pyMedian (l : List ℚ) : ℚ :=
  let s := l.insertionSort (· ≤ ·)
  if l.length % 2 = 1 then s.getD (l.length / 2) 0
  else (s.getD (l.length / 2 - 1) 0 + s.getD (l.length / 2) 0) / 2

/-- Population variance, the square of `np.std(y)` (`np.std` uses divisor N). -/
def popVar (l : List ℚ) : ℚ :=
  (l.map (fun v => (v - listMean l) ^ 2)).sum / l.length

/-- One row of the statistics table, holding the exact computed values
(name, mean of y, median of y, population variance of y); the table cells
display `round2q` of the first two and `round2r` of the square root of the
variance (the population standard deviation), see `fmtRow`. -/
abbrev StatsRow := String × ℚ × ℚ × ℚ

/-- `MainWindow.update_stats_table(datasets)`: one row per gathered dataset. -/
def update_stats_table (ds : List DS) : List StatsRow :=
  ds.map (fun d => (d.2.2, listMean d.2.1, pyMedian d.2.1, popVar d.2.1))

/-- The `MainWindow` state the claims observe: the dataset registry, the
checkable selector list, the current plot mode, the canvas and the
statistics table. -/
structure AppState where
  registry : Registry
  selector : List SelItem
  mode : PlotMode
  chart : Chart
  stats : List StatsRow
deriving DecidableEq, Repr

/-- The dataset-gathering loop shared by `update_plot` and `save_pdf`:
walk the selector items in order, keep the checked ones whose text is a
registry key, and unpack the stored pairs with `zip(*data)` into
`(x_data, y_data, name)`. -/
def gather (reg : Registry) (sel : List SelItem) : List DS :=
  sel.filterMap (fun it =>
    if it.checked then
      match dictLookup reg it.name with
      | some data => some (data.map Prod.fst, data.map Prod.snd, it.name)
      | none => none
    else none)

/-- `x_label = 'Time' if plot_type != 'fft' else 'Frequency'`. -/
def xLabelFor (m : PlotMode) : String :=
  if m = .fft then "Frequency" else "Time"

/-- `y_label = 'Amplitude' if plot_type != 'hist' else 'Frequency'`. -/
def yLabelFor (m : PlotMode) : String :=
  if m = .hist then "Frequency" else "Amplitude"

/-- `MainWindow.update_plot`: gather the checked datasets; unless the combo
box still shows `Select Plot`, redraw the canvas and rebuild the statistics
table; in the `Select Plot` case nothing is touched. -/
def update_plot (st : AppState) : AppState :=
  let ds := gather st.registry st.selector
  if st.mode ≠ PlotMode.selectPlot then
    { st with
      chart := canvasPlot ds st.mode (xLabelFor st.mode) (yLabelFor st.mode)
      stats := update_stats_table ds }
  else st

/-- One file chosen in the open dialog: its basename and its decoded
content, `none` when `np.load` raises on it (malformed file). -/
structure SrcFile where
  name : String
  content : Option Data
deriving DecidableEq, Repr

/-- The body of `MainWindow.load_files` over the chosen batch: for each file
append an unchecked selector item, then decode; a decode failure raises out
of the loop (second component `true`), skipping the remaining files and the
final `update_plot()` call. -/
def load_files_go (st : AppState) : List SrcFile → AppState × Bool
  | [] => (update_plot st, false)
  | f :: rest =>
    let st1 := { st with selector := st.selector ++ [⟨f.name, false⟩] }
    match f.content with
    | none => (st1, true)
    | some d =>
      load_files_go { st1 with registry := dictInsert st1.registry f.name d } rest

/-- `MainWindow.load_files` on a given batch of chosen files; the Boolean
records whether an exception escaped the handler. -/
def load_files (st : AppState) (files : List SrcFile) : AppState × Bool :=
  load_files_go st files

/-- The registry produced by a sequence of loads starting from an empty
registry (each load performing `self.datasets[short_name] = data`). -/
def loadSeq (ops : List (String × Data)) : Registry :=
  ops.foldl (fun r p => dictInsert r p.1 p.2) []

/-- The content of the most recent load of a sequence that used a given
name: first match in the reversed sequence. -/
def mostRecent (ops : List (String × Data)) (n : String) : Option Data :=
  (ops.reverse.find? (fun p => p.1 == n)).map Prod.snd

/-- Two-decimal formatting of an exact rational cell value, as the integer
number of hundredths: the Python format `%.2f` prints `round2q q / 100`.
(Modelled as round-half-up; the two agree away from exact half-hundredth
ties, and no value in the claims is such a tie.) -/
def round2q (q : ℚ) : ℤ := ⌊100 * q + 1 / 2⌋

/-- Two-decimal formatting of a real cell value (the standard deviation,
an irrational square root), as the integer number of hundredths. -/
noncomputable def round2r (x : ℝ) : ℤ := ⌊100 * x + 1 / 2⌋

/-- The displayed form of a statistics row: name, then mean, median and
population standard deviation (the square root of the stored variance),
each formatted to 2 decimal places (in hundredths). -/
noncomputable def fmtRow (r : StatsRow) : String × ℤ × ℤ × ℤ :=
  (r.1, round2q r.2.1, round2q r.2.2.1, round2r (Real.sqrt r.2.2.2))

/-- `T = x_data[1] - x_data[0] if len(x_data) > 1 else 1`. -/
def spacing (x : List ℚ) : ℚ :=
  if 1 < x.length then x.getD 1 0 - x.getD 0 0 else 1

/-- `np.fft.fftfreq(N, T)[k]`: `k / (N*T)` for `k` up to `(N-1) // 2`, and
`(k - N) / (N*T)` for the remaining (negative-frequency) slots. -/
def fftfreqVal (N : ℕ) (T : ℚ) (k : ℕ) : ℚ :=
  (if k < (N + 1) / 2 then (k : ℚ) else (k : ℚ) - N) / (N * T)

/-- Magnitude of the k-th discrete-Fourier-transform coefficient of `y`
(the `scipy.fft.fft` convention, negative exponent). -/
noncomputable def dftMag (y : List ℚ) (k : ℕ) : ℝ :=
  Complex.abs (∑ j ∈ Finset.range y.length,
    ((y.getD j 0 : ℚ) : ℂ) *
      Complex.exp (-(2 * (Real.pi : ℂ) * Complex.I * j * k) / y.length))

/-- The `fft` branch of `PlotCanvas.plot` for one dataset: the plotted
points `(xf, 2.0 / N * np.abs(yf[:N // 2]))` with
`xf = np.fft.fftfreq(N, T)[:N // 2]`; `none` models the `ZeroDivisionError`
of `2.0 / N` on an empty dataset (which the `len(x) == len(y) >= 1`
dataset invariant rules out). -/
noncomputable def spectrumPlot (x y : List ℚ) : Option (List (ℚ × ℝ)) :=
  if y.length = 0 then none
  else
    some ((List.range (y.length / 2)).map (fun k =>
      (fftfreqVal y.length (spacing x) k, 2 / (y.length : ℝ) * dftMag y k)))

/-- One chart page of the PDF report: its title, the labels of the plotted
artists, and the axis labels. -/
structure ChartPage where
  title : String
  labels : List String
  xLabel : String
  yLabel : String
deriving DecidableEq, Repr

/-- The report document: the statistics summary page (one line per rendered
dataset) followed by the chart pages. -/
structure Report where
  statsPage : List StatsRow
  chartPages : List ChartPage
deriving DecidableEq, Repr

/-- The labels one dataset contributes to a report chart page in `save_pdf`
(the regression page labels both the scatter and the fit line). -/
def reportArtists (m : PlotMode) (name : String) : List String :=
  match m with
  | .line => [name]
  | .hist => [name]
  | .fft => [name]
  | .regression => [name ++ " Data Points", name ++ " Fit"]
  | .selectPlot => []

/-- `f"Combined {plot_type.capitalize()} Plot"`. -/
def modeTitle (m : PlotMode) : String :=
  match m with
  | .line => "Combined Line Plot"
  | .hist => "Combined Hist Plot"
  | .fft => "Combined Fft Plot"
  | .regression => "Combined Regression Plot"
  | .selectPlot => ""

/-- The page-building part of `MainWindow.save_pdf` over the gathered
datasets: the statistics summary page, then one page per entry of
`plot_types = ['line', 'hist', 'fft', 'regression']`. -/
def buildReport (ds : List DS) : Report :=
  { statsPage := update_stats_table ds
    chartPages := [PlotMode.line, .hist, .fft, .regression].map (fun m =>
      { title := modeTitle m
        labels := (ds.map (fun d => reportArtists m d.2.2)).flatten
        xLabel := xLabelFor m
        yLabel := yLabelFor m }) }

/-- The report `MainWindow.save_pdf` produces from the current window state:
it gathers the *checked* selector items present in the registry (the same
loop as `update_plot`) and builds the document over them. -/
def save_pdf_report (st : AppState) : Report :=
  buildReport (gather st.registry st.selector)

/-- The environment of one `save_pdf` run: whether the `PdfPages`
construction raises (for example the file open failing with `OSError`),
whether some step inside the `try` block raises (a `savefig`, `np.polyfit`
on a degenerate dataset, `zip(*data)` on an empty one, the move), and the
destination the user picks (`none` when the dialog is cancelled). -/
structure ExportEnv where
  pdfOpenFails : Bool
  bodyFails : Bool
  savePath : Option String
deriving DecidableEq, Repr

/-- The file-system outcome of one `save_pdf` run. -/
structure ExportResult where
  raised : Bool
  tempDirRemoved : Bool
  movedTo : Option String
deriving DecidableEq, Repr

/-- The effect skeleton of `MainWindow.save_pdf`: `tempfile.mkdtemp()` and
`PdfPages(pdf_file_path)` run *before* the `try`, so a raise in the
`PdfPages` construction escapes without the `finally: shutil.rmtree(temp_dir)`
running; every raise inside the `try` block reaches the `finally`, which
removes the temporary directory and everything in it. -/
def save_pdf_fs (env : ExportEnv) : ExportResult :=
  if env.pdfOpenFails then
    { raised := true, tempDirRemoved := false, movedTo := none }
  else if env.bodyFails then
    { raised := true, tempDirRemoved := true, movedTo := none }
  else
    { raised := false, tempDirRemoved := true, movedTo := env.savePath }

end DataAnalysis

namespace RealTime

/-- The `PlotWorker` state of `main.py` that the claims observe: the
generator parameters, the running flag, the accumulated (time, value)
series, and the log of completed persistence writes (filename, contents). -/
structure Worker where
  amplitude : ℚ
  offset : ℚ
  frequency : ℚ
  running : Bool
  data : List (ℚ × ℚ)
  saved : List (String × List (ℚ × ℚ))
deriving DecidableEq, Repr

/-- `PlotWorker.save_data` at Unix time `now`: append one write of the full
accumulated series to the file `data_{int(time.time())}.npy`. -/
def save_data (w : Worker) (now : ℕ) : Worker :=
  { w with saved := w.saved ++ [("data_" ++ toString now ++ ".npy", w.data)] }

/-- `PlotWorker.stop`: clear the running flag, then `save_data` once. -/
def stop (w : Worker) (now : ℕ) : Worker :=
  save_data { w with running := false } now

end RealTime

namespace DataAnalysis

/-- The freshly constructed canvas: empty axes, no labels, no legend. -/
def chart0 : Chart :=
  { lines := [], patches := [], xLabel := "", yLabel := "", legendShown := false }

/-- A window with nothing loaded and the combo box on `Select Plot`. -/
def stIdle : AppState :=
  { registry := [], selector := [], mode := .selectPlot, chart := chart0, stats := [] }

theorem dictLookup_cons (p : String × Data) (r : Registry) (m : String) :
    dictLookup (p :: r) m = if p.1 = m then some p.2 else dictLookup r m := by
  by_cases h : p.1 = m <;> simp [dictLookup, List.find?_cons, h]

theorem dictLookup_dictInsert (r : Registry) (n : String) (d : Data) (m : String) :
    dictLookup (dictInsert r n d) m = if m = n then some d else dictLookup r m := by
  induction r with
  | nil =>
    by_cases h : m = n <;> simp [dictInsert, dictLookup_cons, dictLookup, h]
    exact fun hc => absurd hc.symm h
  | cons p r ih =>
    by_cases hp : p.1 = n
    · rw [dictInsert, if_pos hp, dictLookup_cons, dictLookup_cons]
      by_cases hm : m = n
      · simp [hm]
      · have : ¬ n = m := fun hc => hm hc.symm
        simp [this, hm, hp]
    · rw [dictInsert, if_neg hp, dictLookup_cons, dictLookup_cons, ih]
      by_cases hq : p.1 = m
      · have : ¬ m = n := fun hc => hp (hq.trans hc)
        simp [hq, this]
      · simp [hq]

theorem keys_dictInsert (r : Registry) (n : String) (d : Data) :
    (dictInsert r n d).map Prod.fst
      = if n ∈ r.map Prod.fst then r.map Prod.fst else r.map Prod.fst ++ [n] := by
  induction r with
  | nil => simp [dictInsert]
  | cons p r ih =>
    by_cases hp : p.1 = n
    · simp [dictInsert, hp]
    · have hne : ¬ n = p.1 := fun hc => hp hc.symm
      rw [dictInsert, if_neg hp]
      by_cases hmem : n ∈ r.map Prod.fst
      · simp [hmem, hne, ih]
      · simp [hmem, hne, ih]

theorem mem_keys_dictInsert (r : Registry) (n : String) (d : Data) (m : String) :
    m ∈ (dictInsert r n d).map Prod.fst ↔ m ∈ r.map Prod.fst ∨ m = n := by
  rw [keys_dictInsert]
  split_ifs with hmem
  · constructor
    · exact fun h => Or.inl h
    · rintro (h | rfl)
      · exact h
      · exact hmem
  · simp

theorem nodup_keys_dictInsert (r : Registry) (n : String) (d : Data)
    (h : (r.map Prod.fst).Nodup) : ((dictInsert r n d).map Prod.fst).Nodup := by
  rw [keys_dictInsert]
  split_ifs with hmem
  · exact h
  · simp [List.nodup_append, h, hmem]

theorem loadSeq_append_single (ops : List (String × Data)) (p : String × Data) :
    loadSeq (ops ++ [p]) = dictInsert (loadSeq ops) p.1 p.2 := by
  simp [loadSeq, List.foldl_append]

theorem nodup_keys_loadSeq (ops : List (String × Data)) :
    ((loadSeq ops).map Prod.fst).Nodup := by
  induction ops using List.reverseRecOn with
  | nil => simp [loadSeq]
  | append_singleton ops p ih =>
    rw [loadSeq_append_single]
    exact nodup_keys_dictInsert _ _ _ ih

theorem mem_keys_loadSeq (ops : List (String × Data)) (n : String) :
    n ∈ (loadSeq ops).map Prod.fst ↔ n ∈ ops.map Prod.fst := by
  induction ops using List.reverseRecOn with
  | nil => simp [loadSeq]
  | append_singleton ops p ih =>
    rw [loadSeq_append_single, mem_keys_dictInsert]
    simp [ih]

theorem dictLookup_loadSeq (ops : List (String × Data)) (n : String) :
    dictLookup (loadSeq ops) n = mostRecent ops n := by
  induction ops using List.reverseRecOn with
  | nil => rfl
  | append_singleton ops p ih =>
    rw [loadSeq_append_single, dictLookup_dictInsert]
    unfold mostRecent at ih ⊢
    rw [List.reverse_append, List.reverse_singleton, List.singleton_append]
    by_cases h : p.1 = n
    · rw [List.find?_cons_of_pos _ (by simp [h]), if_pos h.symm]
      rfl
    · rw [List.find?_cons_of_neg _ (by simp [h]), if_neg (fun hc => h hc.symm), ih]

theorem update_plot_selector (st : AppState) :
    (update_plot st).selector = st.selector := by
  simp only [update_plot]
  split <;> rfl

theorem update_plot_registry (st : AppState) :
    (update_plot st).registry = st.registry := by
  simp only [update_plot]
  split <;> rfl

/-- Claim C7: for any finite sequence of `load(name, samples)` calls, the
registry afterward has pairwise-distinct names, its names are exactly the
names used by the sequence, and the content stored under each name is the
content of the most recent load with that name (re-adding overwrites). -/
theorem claim_C7 (ops : List (String × Data)) :
    ((loadSeq ops).map Prod.fst).Nodup
    ∧ (∀ n, n ∈ (loadSeq ops).map Prod.fst ↔ n ∈ ops.map Prod.fst)
    ∧ (∀ n, dictLookup (loadSeq ops) n = mostRecent ops n) :=
  ⟨nodup_keys_loadSeq ops, fun n => mem_keys_loadSeq ops n,
    fun n => dictLookup_loadSeq ops n⟩

/-- Claim C6: with the combo box on `Select Plot` (the "none" mode),
`update_plot` leaves the whole window state — in particular the chart and
the statistics table — unchanged, for every registry and selection state. -/
theorem claim_C6 (st : AppState) (h : st.mode = PlotMode.selectPlot) :
    update_plot st = st := by
  simp [update_plot, h]

/-- Witness for claim C6 at a concrete window state. -/
theorem claim_C6_witness : update_plot stIdle = stIdle :=
  claim_C6 stIdle rfl

/-- A concrete stopped-worker state for the claim C9 witness. -/
def worker0 : RealTime.Worker :=
  { amplitude := 1, offset := 0, frequency := 1, running := true,
    data := [(0, 0)], saved := [] }

/-- Claim C9: stopping a running producer appends exactly one persistence
write beyond those already completed; the write carries the full accumulated
series and targets the file named by the Unix timestamp, and the running
flag is cleared. -/
theorem claim_C9 (w : RealTime.Worker) (now : ℕ) (_h : w.running = true) :
    (RealTime.stop w now).saved
      = w.saved ++ [("data_" ++ toString now ++ ".npy", w.data)]
    ∧ (RealTime.stop w now).saved.length = w.saved.length + 1
    ∧ (RealTime.stop w now).data = w.data
    ∧ (RealTime.stop w now).running = false := by
  simp [RealTime.stop, RealTime.save_data]

/-- Witness for claim C9 at a concrete running worker and timestamp. -/
theorem claim_C9_witness :
    (RealTime.stop worker0 100).saved = [("data_100.npy", [(0, 0)])] := by
  have h := (claim_C9 worker0 100 rfl).1
  rw [h]
  rfl

/-- First load of the duplicate-name scenario. -/
def d1dup : Data := [(0, 1)]

/-- Second load of the duplicate-name scenario, under the same basename. -/
def d2dup : Data := [(0, 5)]

/-- The user checking every entry of the selector list. -/
def checkAll (sel : List SelItem) : List SelItem :=
  sel.map (fun it => ⟨it.name, true⟩)

/-- Scenario: load `a`, load `a` again with different content, check both
selector entries, and refresh the view. -/
def stDupA : AppState := (load_files stIdle [⟨"a", some d1dup⟩]).1

def stDupB : AppState :=
  (load_files { stDupA with mode := .line } [⟨"a", some d2dup⟩]).1

def stDup : AppState :=
  update_plot { stDupB with selector := checkAll stDupB.selector }

/-- Claim C10: loading a file whose basename is already a registry key
appends a second independent checkable selector entry while the registry
keeps a single entry holding the latest content; with both entries checked,
the gather loop yields the dataset twice, so the statistics table has more
rows than there are distinct selected names. -/
theorem claim_C10 :
    (∀ (st : AppState) (name : String) (d : Data),
        (load_files st [⟨name, some d⟩]).1.selector
          = st.selector ++ [⟨name, false⟩]
      ∧ dictLookup (load_files st [⟨name, some d⟩]).1.registry name = some d
      ∧ (load_files st [⟨name, some d⟩]).1.registry.map Prod.fst
          = (if name ∈ st.registry.map Prod.fst then st.registry.map Prod.fst
             else st.registry.map Prod.fst ++ [name]))
    ∧ stDup.selector = [⟨"a", true⟩, ⟨"a", true⟩]
    ∧ stDup.registry = [("a", d2dup)]
    ∧ gather stDup.registry stDup.selector = [([0], [5], "a"), ([0], [5], "a")]
    ∧ stDup.stats.length = 2
    ∧ (stDup.selector.map SelItem.name).dedup = ["a"] := by
  refine ⟨fun st name d => ⟨?_, ?_, ?_⟩, ?_, ?_, ?_, ?_, ?_⟩
  · simp [load_files, load_files_go, update_plot_selector]
  · simp [load_files, load_files_go, update_plot_registry, dictLookup_dictInsert]
  · simp [load_files, load_files_go, update_plot_registry, keys_dictInsert]
  · decide
  · decide
  · decide
  · decide
  · decide

theorem flatten_map_nil (ds : List DS) :
    (ds.map (fun _ => ([] : List String))).flatten = [] := by
  induction ds <;> simp [*]

theorem flatten_map_singleton (ds : List DS) (f : DS → String) :
    (ds.map (fun d => [f d])).flatten = ds.map f := by
  induction ds <;> simp [*]

/-- Counterexample to claim C8 as stated: a histogram rendering of one
labeled dataset produces a labeled patch series but no legend, because the
legend guard inspects only the line artists of the axes. -/
theorem claim_C8_counterexample :
    (canvasPlot [([0], [0], "A")] PlotMode.hist "Time" "Frequency").legendShown = false
    ∧ (canvasPlot [([0], [0], "A")] PlotMode.hist "Time" "Frequency").patches = ["A"]
    ∧ "A" ≠ NOLEGEND := by
  refine ⟨rfl, rfl, by decide⟩

/-- Claim C8 as amended: the legend is shown exactly when the chart holds a
*line* artist labeled other than `_nolegend_`; histogram mode adds one
labeled patch series per dataset and no lines, so a histogram chart never
shows a legend. -/
theorem claim_C8_amended (ds : List DS) (m : PlotMode) (xl yl : String) :
    ((canvasPlot ds m xl yl).legendShown = true
      ↔ ∃ l ∈ (canvasPlot ds m xl yl).lines, l ≠ NOLEGEND)
    ∧ (canvasPlot ds PlotMode.hist xl yl).lines = []
    ∧ (canvasPlot ds PlotMode.hist xl yl).patches = ds.map (fun d => d.2.2)
    ∧ (canvasPlot ds PlotMode.hist xl yl).legendShown = false := by
  refine ⟨?_, ?_, ?_, ?_⟩
  · rw [show (canvasPlot ds m xl yl).legendShown
        = (canvasPlot ds m xl yl).lines.any (fun l => l != NOLEGEND) from rfl,
      List.any_eq_true]
    simp only [bne_iff_ne]
  · simp [canvasPlot, modeArtists, flatten_map_nil]
  · simp [canvasPlot, modeArtists, flatten_map_singleton]
  · simp [canvasPlot, modeArtists, flatten_map_nil]

/-- Dataset A of the concrete statistics scenario. -/
def dataA : Data := [(0, 0), (1, 1), (2, 0)]

/-- Dataset B of the concrete statistics scenario. -/
def dataB : Data := [(0, 2), (1, 1), (2, 2)]

/-- A window holding dataset A in the registry with its selector entry left
unchecked. -/
def stUnchecked : AppState :=
  { registry := [("A", dataA)], selector := [⟨"A", false⟩], mode := .line,
    chart := chart0, stats := [] }

/-- Counterexample to claim C1 as stated: with one dataset loaded but not
checked, the exported report renders no dataset at all — its statistics page
and all four chart pages are empty while the registry holds `A`. -/
theorem claim_C1_counterexample :
    (save_pdf_report stUnchecked).statsPage.map Prod.fst = []
    ∧ (save_pdf_report stUnchecked).chartPages.map ChartPage.labels
        = [[], [], [], []]
    ∧ stUnchecked.registry.map Prod.fst = ["A"] := by
  refine ⟨rfl, rfl, rfl⟩

theorem statsPage_names (ds : List DS) :
    (update_stats_table ds).map Prod.fst = ds.map (fun d => d.2.2) := by
  simp [update_stats_table]

theorem gather_names (reg : Registry) (sel : List SelItem) :
    (gather reg sel).map (fun d => d.2.2)
      = (sel.filter
          (fun it => it.checked && (dictLookup reg it.name).isSome)).map SelItem.name := by
  induction sel with
  | nil => rfl
  | cons it sel ih =>
    by_cases hc : it.checked
    · cases hl : dictLookup reg it.name with
      | none => simp [gather, List.filter_cons, hc, hl, gather] at ih ⊢; exact ih
      | some data => simp [gather, List.filter_cons, hc, hl] at ih ⊢; exact ih
    · simp [gather, List.filter_cons, hc] at ih ⊢; exact ih

/-- Claim C1 as amended: `save_pdf` builds the statistics page and the four
per-mode chart pages over the currently *checked* datasets present in the
registry (the same gather loop as the live view) — independent of the
current plot mode, but not of the selection, and not over the full registry. -/
theorem claim_C1_amended (st : AppState) :
    (save_pdf_report st).statsPage.map Prod.fst
      = (st.selector.filter
          (fun it => it.checked && (dictLookup st.registry it.name).isSome)).map SelItem.name
    ∧ (save_pdf_report st).chartPages.map ChartPage.title
        = ["Combined Line Plot", "Combined Hist Plot", "Combined Fft Plot",
           "Combined Regression Plot"]
    ∧ (∀ m, save_pdf_report { st with mode := m } = save_pdf_report st)
    ∧ (save_pdf_report st).chartPages.map ChartPage.labels
        = [PlotMode.line, .hist, .fft, .regression].map (fun m =>
            ((gather st.registry st.selector).map
              (fun d => reportArtists m d.2.2)).flatten) := by
  refine ⟨?_, ?_, fun m => rfl, ?_⟩
  · rw [save_pdf_report, buildReport]
    exact (statsPage_names _).trans (gather_names _ _)
  · rfl
  · rfl

/-- A decodable file of the batch scenario. -/
def goodA : SrcFile := ⟨"a", some [(0, 1)]⟩

/-- The malformed file of the batch scenario (`np.load` raises on it). -/
def badB : SrcFile := ⟨"b", none⟩

/-- A decodable file placed after the malformed one. -/
def goodC : SrcFile := ⟨"c", some [(0, 2)]⟩

/-- Counterexample to claim C2 as stated: in the batch `[a, b, c]` with `b`
malformed, the load raises, and the well-formed file `c` is never loaded —
the registry ends up holding only `a`. -/
theorem claim_C2_counterexample :
    (load_files stIdle [goodA, badB, goodC]).2 = true
    ∧ (load_files stIdle [goodA, badB, goodC]).1.registry.map Prod.fst = ["a"]
    ∧ ([goodA, badB, goodC].filter (fun f => f.content.isSome)).map SrcFile.name
        = ["a", "c"]
    ∧ dictLookup (load_files stIdle [goodA, badB, goodC]).1.registry "c" = none := by
  refine ⟨rfl, rfl, rfl, rfl⟩

/-- Claim C2 as amended: a file that cannot be decoded aborts the batch at
that point — the files before it are loaded into the registry, its own
selector entry is still appended (the item is added before decoding), the
files after it are not processed at all, and the post-load refresh is
skipped; the exception escapes the handler. -/
theorem claim_C2_amended (st : AppState) (pre : List SrcFile) (f : SrcFile)
    (post : List SrcFile) (hpre : ∀ g ∈ pre, (g.content).isSome)
    (hf : f.content = none) :
    load_files st (pre ++ f :: post)
      = ({ st with
            selector := st.selector ++ pre.map (fun g => ⟨g.name, false⟩)
              ++ [⟨f.name, false⟩]
            registry := pre.foldl
              (fun r g => dictInsert r g.name (g.content.getD [])) st.registry },
         true) := by
  induction pre generalizing st with
  | nil => simp [load_files, load_files_go, hf]
  | cons g pre ih =>
    have hg : (g.content).isSome := hpre g (by simp)
    obtain ⟨d, hd⟩ := Option.isSome_iff_exists.mp hg
    have step := ih
      { st with
        selector := st.selector ++ [⟨g.name, false⟩]
        registry := dictInsert st.registry g.name d }
      (fun g hgm => hpre g (by simp [hgm]))
    simp only [load_files, load_files_go, List.cons_append, List.append_eq, hd]
      at step ⊢
    rw [step]
    simp [hd, List.append_assoc]

/-- Witness for claim C2 as amended: batch `[a, b]` with `b` malformed
loads `a`, appends both selector entries, and raises. -/
theorem claim_C2_amended_witness :
    (load_files stIdle [goodA, badB]).2 = true
    ∧ (load_files stIdle [goodA, badB]).1.registry.map Prod.fst = ["a"]
    ∧ (load_files stIdle [goodA, badB]).1.selector
        = [⟨"a", false⟩, ⟨"b", false⟩] := by
  have h := claim_C2_amended stIdle [goodA] badB [] (by decide) rfl
  rw [show [goodA, badB] = [goodA] ++ badB :: [] from rfl, h]
  refine ⟨rfl, rfl, rfl⟩

/-- The run of `save_pdf` in which the `PdfPages` construction raises. -/
def envPdfOpenFail : ExportEnv :=
  { pdfOpenFails := true, bodyFails := false, savePath := none }

/-- Claim C3, settled against the code: a raise in the `PdfPages`
construction — which happens *before* the `try`/`finally` — escapes without
the temporary directory being removed, while every run that reaches the
`try` block does get the `finally` cleanup on success and on failure alike. -/
theorem claim_C3 :
    (save_pdf_fs envPdfOpenFail).raised = true
    ∧ (save_pdf_fs envPdfOpenFail).tempDirRemoved = false
    ∧ (∀ env : ExportEnv, env.pdfOpenFails = false →
        (save_pdf_fs env).tempDirRemoved = true) := by
  refine ⟨rfl, rfl, fun env h => ?_⟩
  rcases env with ⟨po, bf, sp⟩
  have hpo : po = false := h
  subst hpo
  cases bf <;> rfl

/-- Witness for claim C3 at a run that fails inside the `try` block: the
cleanup still runs. -/
theorem claim_C3_witness :
    (save_pdf_fs { pdfOpenFails := false, bodyFails := true, savePath := none }).tempDirRemoved
      = true :=
  claim_C3.2.2 { pdfOpenFails := false, bodyFails := true, savePath := none } rfl

/-- The two-decimal rounding of the population standard deviation shared by
both scenario datasets: their variance is 2/9, whose square root 0.4714…
formats as 0.47. -/
theorem round2r_sqrt_two_ninths : round2r (Real.sqrt (2 / 9)) = 47 := by
  have h0 : (0 : ℝ) ≤ 2 / 9 := by norm_num
  have hs := Real.sq_sqrt h0
  have hnn := Real.sqrt_nonneg ((2 : ℝ) / 9)
  rw [round2r, Int.floor_eq_iff]
  push_cast
  constructor
  · nlinarith [hs, hnn]
  · nlinarith [hs, hnn]

theorem update_plot_stats (st : AppState) (h : st.mode ≠ PlotMode.selectPlot) :
    (update_plot st).stats = update_stats_table (gather st.registry st.selector) := by
  simp [update_plot, h]

/-- The window of the concrete statistics scenario before the refresh:
datasets A and B loaded, both checked, mode `line`. -/
def stStats0 : AppState :=
  { registry := loadSeq [("A", dataA), ("B", dataB)]
    selector := [⟨"A", true⟩, ⟨"B", true⟩]
    mode := .line
    chart := chart0
    stats := [] }

/-- The concrete statistics scenario after the view refresh. -/
def stStats : AppState := update_plot stStats0

/-- Claim C4: the statistics table holds one row per gathered dataset with
(name, mean of y, median of y, population standard deviation of y); in the
concrete scenario the displayed two-decimal cells are
A ↦ (0.33, 0.00, 0.47) and B ↦ (1.67, 2.00, 0.47), written in hundredths. -/
theorem claim_C4 :
    (∀ st : AppState, st.mode ≠ PlotMode.selectPlot →
        (update_plot st).stats = update_stats_table (gather st.registry st.selector))
    ∧ stStats.stats.map fmtRow = [("A", 33, 0, 47), ("B", 167, 200, 47)] := by
  refine ⟨update_plot_stats, ?_⟩
  have hgather : gather stStats0.registry stStats0.selector
      = [([0, 1, 2], [0, 1, 0], "A"), ([0, 1, 2], [2, 1, 2], "B")] := by decide
  rw [stStats, update_plot_stats stStats0 (by decide), hgather]
  rw [show update_stats_table [([0, 1, 2], [0, 1, 0], "A"), ([0, 1, 2], [2, 1, 2], "B")]
      = [("A", listMean [0, 1, 0], pyMedian [0, 1, 0], popVar [0, 1, 0]),
         ("B", listMean [2, 1, 2], pyMedian [2, 1, 2], popVar [2, 1, 2])] from rfl]
  have hmA : listMean [0, 1, 0] = 1 / 3 := by norm_num [listMean]
  have hdA : pyMedian [0, 1, 0] = 0 := by
    norm_num [pyMedian, List.insertionSort, List.orderedInsert]
  have hvA : popVar [0, 1, 0] = 2 / 9 := by norm_num [popVar, listMean]
  have hmB : listMean [2, 1, 2] = 5 / 3 := by norm_num [listMean]
  have hdB : pyMedian [2, 1, 2] = 2 := by
    norm_num [pyMedian, List.insertionSort, List.orderedInsert]
  have hvB : popVar [2, 1, 2] = 2 / 9 := by norm_num [popVar, listMean]
  rw [hmA, hdA, hvA, hmB, hdB, hvB]
  simp only [List.map_cons, List.map_nil, fmtRow]
  have hcast : (((2 : ℚ) / 9 : ℚ) : ℝ) = 2 / 9 := by push_cast; ring
  simp only [hcast, round2r_sqrt_two_ninths]
  norm_num [round2q, Int.floor_eq_iff]

/-- Witness for claim C4 at a concrete non-`Select Plot` state. -/
theorem claim_C4_witness :
    (update_plot { stIdle with mode := PlotMode.line }).stats
      = update_stats_table (gather stIdle.registry stIdle.selector) :=
  claim_C4.1 { stIdle with mode := PlotMode.line } (by decide)

/-- Claim C5: for every dataset of paired samples, the spectrum branch
completes and plots exactly the first N/2 frequency bins, the k-th being
(k / (N·T), 2/N · |DFT(y)(k)|) with T the spacing of the first two x values
when there are at least two samples and 1 otherwise; a single-sample dataset
yields the empty plot without error. -/
theorem claim_C5 (x y : List ℚ) (hxy : x.length = y.length)
    (hN : 1 ≤ y.length) :
    ∃ l, spectrumPlot x y = some l
      ∧ l.length = y.length / 2
      ∧ (∀ k, (hk : k < l.length) →
          l.get ⟨k, hk⟩
            = ((k : ℚ) / (y.length * spacing x),
               2 / (y.length : ℝ) * dftMag y k))
      ∧ (1 < x.length → spacing x = x.getD 1 0 - x.getD 0 0)
      ∧ (x.length ≤ 1 → spacing x = 1)
      ∧ (y.length = 1 → l = []) := by
  have h0 : ¬ y.length = 0 := by omega
  refine ⟨(List.range (y.length / 2)).map (fun k =>
      (fftfreqVal y.length (spacing x) k, 2 / (y.length : ℝ) * dftMag y k)),
    ?_, ?_, ?_, ?_, ?_, ?_⟩
  · rw [spectrumPlot, if_neg h0]
  · simp
  · intro k hk
    simp only [List.length_map, List.length_range] at hk
    simp only [List.get_eq_getElem, List.getElem_map, List.getElem_range]
    have hcond : k < (y.length + 1) / 2 := by omega
    rw [fftfreqVal, if_pos hcond]
  · intro h1
    rw [spacing, if_pos h1]
  · intro h1
    rw [spacing, if_neg (by omega)]
  · intro h1
    simp [h1]

/-- Witness for claim C5 at a single-sample dataset: the spectrum branch
completes and plots nothing. -/
theorem claim_C5_witness : spectrumPlot [(5 : ℚ)] [(3 : ℚ)] = some [] := by
  obtain ⟨l, hsome, hlen, _, _, _, hone⟩ :=
    claim_C5 [(5 : ℚ)] [(3 : ℚ)] rfl (by norm_num)
  rw [hsome, hone rfl]

end DataAnalysis


